import Mathlib

/-
Verification of the authentication core of api-auth-nestjs-base.

Shallow embedding of the TypeScript sources:
  - src/auth/strategies/jwt.strategy.ts : JwtStrategy (constructor + validate)
  - src/auth/auth.service.ts            : AuthService (signUp, handleDBError)
  - src/auth/auth.controller.ts         : AuthController (signup/signin routes)
  - src/auth/decorators/raw-headers.decorator.ts : RawHeaders param decorator

Stateful repository access is modelled by explicit state passing over a
list-backed credential store; thrown NestJS HttpExceptions become the
error side of Except; the bcrypt library's randomized salt is made an
explicit parameter.
-/

/-! ## Password hasher (bcrypt model)

The service calls the bcrypt library (`bcrypt.hashSync(password, 10)` and
`bcrypt.compareSync`), which is not part of this repository's sources.
Modelled from the spec: section 4.2 describes `hash(plaintext) -> hash`
with a randomized salt and a fixed cost factor, and
`verify(plaintext, hash) -> bool`.  A bcrypt output string encodes the
cost, the salt and a digest derived from the plaintext and the salt; we
model it as a record of those three components, with the digest an
injective function of (plaintext, salt). -/

/-- A bcrypt hash value: cost factor, the salt used, and the derived digest.
Real bcrypt renders these three components into one hash string. -/
structure BcryptHash where
  cost : Nat
  salt : Nat
  digest : Nat
deriving DecidableEq, Repr

/-- Positional base-1114113 encoding of a character list; each digit is
`c.toNat + 1`, which lies in [1, 1114112] because valid code points are
below 0x110000. -/
def encodeChars : List Char → Nat
  | [] => 0
  | c :: cs => c.toNat + 1 + 1114113 * encodeChars cs

/-- Injective encoding of a string as a natural number. -/
def encodeString (s : String) : Nat :=
  encodeChars s.data

/-- The digest component of a bcrypt hash: an injective pairing of the
encoded plaintext with the salt (real bcrypt derives the digest from
exactly these two inputs). -/
def bcryptDigest (plaintext : String) (salt : Nat) : Nat :=
  Nat.pair (encodeString plaintext) salt

/-- Model of `bcrypt.hashSync(plaintext, cost)` where the randomly drawn
salt is passed explicitly. -/
def bcryptHashSync (plaintext : String) (cost : Nat) (salt : Nat) : BcryptHash :=
  { cost := cost, salt := salt, digest := bcryptDigest plaintext salt }

/-- Model of `bcrypt.compareSync(plaintext, hash)`: re-derive the digest
with the salt stored in the hash and compare. -/
def bcryptCompareSync (plaintext : String) (h : BcryptHash) : Bool :=
  h.digest == bcryptDigest plaintext h.salt

/-! ## Data model

The User entity file is not among the provided sources; its columns are
modelled from the spec, section 3 (id, email, passwordHash, fullName,
roles, isActive; `isActive` defaults to true at creation).  The service
code accesses the hash under the field name `password`
(`user.password`), and `delete user.password` removes the field, so the
field is an `Option`. -/

/-- The persisted User entity. -/
structure User where
  id : Nat
  email : String
  password : Option BcryptHash
  fullName : String
  roles : List String
  isActive : Bool
deriving DecidableEq, Repr

/-- The credential store: the list of persisted users, in insertion order. -/
abbrev Store := List User

/-- Model of `userRepository.findOneBy({ email })`. -/
def findOneBy (store : Store) (email : String) : Option User :=
  store.find? (fun u => u.email == email)

/-- Administrative deactivation of the user with the given email
(spec section 3: `isActive` is settable only by an administrative
operation outside this core); used to state the deactivation property. -/
def deactivate (store : Store) (email : String) : Store :=
  store.map (fun u => if u.email == email then { u with isActive := false } else u)

/-- A low-level database error as surfaced by the driver: Postgres error
code and detail message. -/
structure DBError where
  code : String
  detail : String
deriving DecidableEq, Repr

/-- Model of `userRepository.save(user)` against the unique-email
constraint (spec section 4.1): inserting a user whose email already
exists fails with Postgres error 23505 carrying the duplicate-key
detail; otherwise the row is appended. -/
def save (store : Store) (user : User) : Except DBError Store :=
  if store.any (fun u => u.email == user.email) then
    .error { code := "23505"
             detail := "Key (email)=(" ++ user.email ++ ") already exists." }
  else
    .ok (store ++ [user])

/-- Client-facing exceptions thrown by the auth core (NestJS
HttpExceptions), plus a signing-configuration error constructor used to
state that per-request validation never produces one. -/
inductive AuthError where
  | unauthorized (msg : String)
  | badRequest (msg : String)
  | internalServerError (msg : String)
  | signingConfig (msg : String)
deriving DecidableEq, Repr

/-- HTTP status code of each client-facing exception. -/
def statusCode : AuthError → Nat
  | .unauthorized _ => 401
  | .badRequest _ => 400
  | .internalServerError _ => 500
  | .signingConfig _ => 500

/-! ## JwtStrategy (src/auth/strategies/jwt.strategy.ts) -/

/-- The decoded token payload (interfaces/jwt-payload.interface.ts);
`validate` destructures only the `email` claim from it. -/
structure JwtPayload where
  email : String
deriving DecidableEq, Repr

/-- The strategy configuration accepted by the passport-jwt `Strategy`
super-constructor: the signing key. -/
structure JwtStrategyCfg where
  secretOrKey : String
deriving DecidableEq, Repr

/-- Failure of Token Validator construction. -/
inductive SigningError where
  | missingKey
deriving DecidableEq, Repr

/-- Modelled from the spec: sections 4.3 and 6 state that a missing or
invalid signing key is a fatal startup-time failure (`SigningError`).
The constructor in jwt.strategy.ts passes `process.env.JWT_SECRET` to
the passport-jwt super-constructor, whose rejection of an absent key is
library behaviour not present in the sources. -/
def jwtStrategyInit (jwtSecret : Option String) : Except SigningError JwtStrategyCfg :=
  match jwtSecret with
  | none => .error .missingKey
  | some k => .ok { secretOrKey := k }

/-- Model of `JwtStrategy.validate(payload)`: resolve the user by the
payload's email against the current store, reject absent then inactive
accounts, otherwise return the user.  The current store is an explicit
argument, so each call re-resolves the user (nothing is cached). -/
def JwtStrategy.validate (payload : JwtPayload) (store : Store) : Except AuthError User :=
  match findOneBy store payload.email with
  | none => .error (.unauthorized "Token not valid")
  | some user =>
    if !user.isActive then
      .error (.unauthorized "User is inactive, talk with an admin")
    else
      .ok user

/-! ## AuthService (src/auth/auth.service.ts) -/

/-- The signup request body (dto/create-user.dto.ts; fields per spec
section 6: email, password, fullName). -/
structure CreateUserDto where
  email : String
  password : String
  fullName : String
deriving DecidableEq, Repr

/-- Model of `AuthService.handleDBError(error)`: Postgres duplicate-key
errors (code 23505) become a BadRequest carrying the driver's detail
string; anything else becomes a generic InternalServerError.  The
result type `Except AuthError Unit` keeps normal return representable,
so that the declared `never` return (both branches throw) is a theorem
rather than an assumption. -/
def AuthService.handleDBError (error : DBError) : Except AuthError Unit :=
  if error.code == "23505" then
    .error (.badRequest error.detail)
  else
    .error (.internalServerError "Please see server logs")

/-- Server-side log entries emitted by `handleDBError`: `console.error`
runs only on the non-duplicate-key path, before the generic 500. -/
def AuthService.handleDBErrorLog (error : DBError) : List DBError :=
  if error.code == "23505" then [] else [error]

/-- Normal (non-thrown) results of `signUp`: the created user, or the
trailing string literal after the try/catch. -/
inductive SignUpResult where
  | user (u : User)
  | message (s : String)
deriving DecidableEq, Repr

/-- Model of `AuthService.signUp(createUserDto)`.  The bcrypt salt is an
explicit parameter (randomness made explicit); id generation by the
store on insert is modelled as the row count.  Mirrors the source: hash
the password with cost 10, build the entity, save it, delete the
password field from the returned entity; on a store error delegate to
`handleDBError`, and fall through to the trailing string return only if
that handler were to return normally.  Returns the result together with
the resulting store state. -/
def AuthService.signUp (dto : CreateUserDto) (store : Store) (salt : Nat) :
    Except AuthError SignUpResult × Store :=
  let user : User :=
    { id := store.length
      email := dto.email
      password := some (bcryptHashSync dto.password 10 salt)
      fullName := dto.fullName
      roles := []
      isActive := true }
  match save store user with
  | .ok store2 => (.ok (.user { user with password := none }), store2)
  | .error e =>
    match AuthService.handleDBError e with
    | .error ae => (.error ae, store)
    | .ok _ => (.ok (.message "This action adds a new auth"), store)

/-! ## Signin (spec-modelled) -/

/-- The signin request body (dto/login-user.dto.ts). -/
structure LoginUserDto where
  email : String
  password : String
deriving DecidableEq, Repr

/-- A signed bearer token; carries the subject email and temporal claims
(spec section 3). -/
structure Token where
  subject : String
  issuedAt : Nat
  expiresAt : Nat
deriving DecidableEq, Repr

/-- Modelled from the spec: the Token Issuer (section 4.3) builds a
token encoding `subject := email` with issue and expiry times; its
implementation is not among the provided sources. -/
def issueToken (email : String) (now : Nat) (lifetime : Nat) : Token :=
  { subject := email, issuedAt := now, expiresAt := now + lifetime }

/-- The signin response body. -/
structure SignInResult where
  token : Token
  user : User
deriving DecidableEq, Repr

/-- Modelled from the spec: `AuthService.signIn` is absent from the
provided sources (only its controller call site appears).  Per spec
section 6, a valid `{email, password}` pair matching a stored user
yields `{token, user}`, and bad credentials yield a 401 error (the
exact message is left open by the spec). -/
def AuthService.signIn (dto : LoginUserDto) (store : Store) (now : Nat) (lifetime : Nat) :
    Except AuthError SignInResult :=
  match findOneBy store dto.email with
  | none => .error (.unauthorized "Invalid credentials")
  | some user =>
    match user.password with
    | none => .error (.unauthorized "Invalid credentials")
    | some h =>
      if bcryptCompareSync dto.password h then
        .ok { token := issueToken dto.email now lifetime, user := user }
      else
        .error (.unauthorized "Invalid credentials")

/-! ## AuthController (src/auth/auth.controller.ts) -/

/-- Model of `AuthController.signUp`: delegates to the service. -/
def AuthController.signUp (dto : CreateUserDto) (store : Store) (salt : Nat) :
    Except AuthError SignUpResult × Store :=
  AuthService.signUp dto store salt

/-- Model of `AuthController.signIn`: delegates to the service. -/
def AuthController.signIn (dto : LoginUserDto) (store : Store) (now : Nat) (lifetime : Nat) :
    Except AuthError SignInResult :=
  AuthService.signIn dto store now lifetime

/-! ## RawHeaders decorator (src/auth/decorators/raw-headers.decorator.ts) -/

/-- The underlying HTTP request as the decorator sees it; `rawHeaders`
is the unprocessed list of header names and values exactly as received
on the wire (alternating name, value, in arrival order). -/
structure Request where
  rawHeaders : List String
deriving DecidableEq, Repr

/-- The NestJS execution context handed to a param decorator; the
decorator only ever extracts the HTTP request from it. -/
structure ExecutionContext where
  request : Request
deriving DecidableEq, Repr

/-- Model of `ctx.switchToHttp().getRequest()`. -/
def ExecutionContext.getRequest (ctx : ExecutionContext) : Request :=
  ctx.request

/-- Model of the `RawHeaders` param decorator: ignores its `data`
argument and returns `req.rawHeaders` unchanged. -/
def RawHeaders (data : Option String) (ctx : ExecutionContext) : List String :=
  (ExecutionContext.getRequest ctx).rawHeaders

/-! ## Concrete sample data for closed witness statements -/

/-- A sample stored password hash (plaintext "pw", cost 10, salt 5). -/
def demoHash : BcryptHash := bcryptHashSync "pw" 10 5

/-- A sample active user as stored by the credential store. -/
def demoUser : User :=
  { id := 0
    email := "a@x"
    password := some demoHash
    fullName := "Demo"
    roles := []
    isActive := true }

/-- A one-user credential store. -/
def demoStore : Store := [demoUser]

/-- A sample signup body whose email collides with `demoUser`. -/
def demoDupDto : CreateUserDto :=
  { email := "a@x", password := "other", fullName := "Dup" }

/-- A sample signup body with a fresh email. -/
def demoFreshDto : CreateUserDto :=
  { email := "b@x", password := "pw2", fullName := "Fresh" }

/-! ## Result classification predicates -/

/-- Does a validation outcome consist of a signing-configuration error? -/
def isSigningConfigError : Except AuthError User → Bool
  | .error (.signingConfig _) => true
  | _ => false

/-- Does a signup outcome return the trailing string literal normally? -/
def isMessageResult : Except AuthError SignUpResult → Bool
  | .ok (.message _) => true
  | _ => false

/-- Does the error handler throw (as its `never` return type declares)? -/
def isThrown : Except AuthError Unit → Bool
  | .error _ => true
  | .ok _ => false

/-- The client-visible error of an outcome, if it failed: what an error
path sends to the client. -/
def errorOf {α : Type} : Except AuthError α → Option AuthError
  | .error e => some e
  | .ok _ => none

/-! ## Helper lemmas -/

/-- Valid Unicode code points are below 0x110000. -/
theorem char_toNat_lt (c : Char) : c.toNat < 1114112 := by
  have h := c.valid
  simp [UInt32.isValidChar, Nat.isValidChar] at h
  rcases h with h | ⟨h1, h2⟩ <;> simp [Char.toNat] <;> omega

/-- Characters with equal code points are equal. -/
theorem char_toNat_inj (c d : Char) (h : c.toNat = d.toNat) : c = d :=
  Char.ext (UInt32.toNat.inj h)

/-- The positional character-list encoding is injective. -/
theorem encodeChars_injective : ∀ l1 l2 : List Char, encodeChars l1 = encodeChars l2 → l1 = l2 := by
  intro l1
  induction l1 with
  | nil =>
    intro l2 h
    cases l2 with
    | nil => rfl
    | cons d ds =>
      exfalso
      simp [encodeChars] at h
      omega
  | cons c cs ih =>
    intro l2 h
    cases l2 with
    | nil =>
      exfalso
      simp [encodeChars] at h
    | cons d ds =>
      simp only [encodeChars] at h
      have hc := char_toNat_lt c
      have hd := char_toNat_lt d
      have h1 : c.toNat = d.toNat ∧ encodeChars cs = encodeChars ds := by
        constructor <;> omega
      rw [char_toNat_inj c d h1.1, ih ds h1.2]

/-- The string encoding is injective. -/
theorem encodeString_injective (s t : String) (h : encodeString s = encodeString t) : s = t := by
  cases s with
  | mk ds =>
    cases t with
    | mk dt =>
      rw [encodeChars_injective ds dt h]

/-- Verification succeeds on a hash of the same plaintext, whatever the
salt was. -/
theorem bcryptCompareSync_hashSync (p : String) (cost salt : Nat) :
    bcryptCompareSync p (bcryptHashSync p cost salt) = true := by
  simp [bcryptCompareSync, bcryptHashSync]

/-- Verification fails on a hash of a different plaintext. -/
theorem bcryptCompareSync_hashSync_ne (p q : String) (cost salt : Nat) (h : q ≠ p) :
    bcryptCompareSync q (bcryptHashSync p cost salt) = false := by
  simp only [bcryptCompareSync, bcryptHashSync, bcryptDigest, beq_eq_false_iff_ne, ne_eq]
  intro heq
  rcases Nat.pair_eq_pair.mp heq with ⟨henc, _⟩
  exact h (encodeString_injective q p henc.symm)

/-- Administrative deactivation commutes with lookup: after
`deactivate store e`, looking up `e` finds the same user with
`isActive` cleared. -/
theorem findOneBy_deactivate (store : Store) (e : String) :
    findOneBy (deactivate store e) e =
      (findOneBy store e).map (fun u => { u with isActive := false }) := by
  induction store with
  | nil => rfl
  | cons u rest ih =>
    simp only [findOneBy, deactivate, List.map_cons, List.find?] at ih ⊢
    cases hb : u.email == e with
    | true => simp [hb]
    | false => simpa [hb] using ih

/-! ## Claim theorems -/

/-- C1: JwtStrategy.validate looks the User up by the payload's email;
an absent User fails with Unauthorized("Token not valid"), a present
but inactive User fails with Unauthorized("User is inactive, talk with
an admin"), and an active User is returned as the authenticated
principal, with the absence check performed before the activity check. -/
theorem validate_resolution_order (payload : JwtPayload) (store : Store) :
    (findOneBy store payload.email = none →
      JwtStrategy.validate payload store = .error (.unauthorized "Token not valid")) ∧
    (∀ u, findOneBy store payload.email = some u → u.isActive = false →
      JwtStrategy.validate payload store =
        .error (.unauthorized "User is inactive, talk with an admin")) ∧
    (∀ u, findOneBy store payload.email = some u → u.isActive = true →
      JwtStrategy.validate payload store = .ok u) := by
  refine ⟨?_, ?_, ?_⟩
  · intro h
    simp [JwtStrategy.validate, h]
  · intro u hu ha
    simp [JwtStrategy.validate, hu, ha]
  · intro u hu ha
    simp [JwtStrategy.validate, hu, ha]

/-- Witness for C1: on the concrete one-user store, a payload for the
stored active user resolves to that user, and a payload for an unknown
email fails with the token-not-valid error. -/
theorem validate_resolution_order_witness :
    JwtStrategy.validate { email := "a@x" } demoStore = .ok demoUser ∧
    JwtStrategy.validate { email := "z@x" } demoStore =
      .error (.unauthorized "Token not valid") :=
  ⟨(validate_resolution_order { email := "a@x" } demoStore).2.2 demoUser rfl rfl,
   (validate_resolution_order { email := "z@x" } demoStore).1 rfl⟩

/-- C2: validation is a function of the current store state, so a
payload accepted while its user is active is rejected with the inactive
Unauthorized error by the very next validation once that user's
isActive flag has been cleared, with no token reissue involved. -/
theorem validate_honors_deactivation (payload : JwtPayload) (store : Store) (u : User)
    (hu : findOneBy store payload.email = some u) (ha : u.isActive = true) :
    JwtStrategy.validate payload store = .ok u ∧
    JwtStrategy.validate payload (deactivate store payload.email) =
      .error (.unauthorized "User is inactive, talk with an admin") := by
  constructor
  · simp [JwtStrategy.validate, hu, ha]
  · have h2 := findOneBy_deactivate store payload.email
    rw [hu] at h2
    simp [JwtStrategy.validate, h2]

/-- Witness for C2: the concrete active demo user validates before and
is rejected immediately after administrative deactivation. -/
theorem validate_honors_deactivation_witness :
    JwtStrategy.validate { email := "a@x" } demoStore = .ok demoUser ∧
    JwtStrategy.validate { email := "a@x" } (deactivate demoStore "a@x") =
      .error (.unauthorized "User is inactive, talk with an admin") :=
  validate_honors_deactivation { email := "a@x" } demoStore demoUser rfl rfl

/-- C3: for a signup whose email is not yet in the store, signUp returns
the created User with the password field removed, so the response never
contains the password hash. -/
theorem signUp_strips_password_hash (dto : CreateUserDto) (store : Store) (salt : Nat)
    (h : (store.any fun u => u.email == dto.email) = false) :
    (AuthService.signUp dto store salt).1 =
      .ok (.user
        { id := store.length
          email := dto.email
          password := none
          fullName := dto.fullName
          roles := []
          isActive := true }) := by
  simp [AuthService.signUp, save, h]

/-- Witness for C3: signing up the fresh demo email against the demo
store returns the created user with no password field. -/
theorem signUp_strips_password_hash_witness :
    (AuthService.signUp demoFreshDto demoStore 7).1 =
      .ok (.user
        { id := 1
          email := "b@x"
          password := none
          fullName := "Fresh"
          roles := []
          isActive := true }) :=
  signUp_strips_password_hash demoFreshDto demoStore 7 (by decide)

/-- C4: a signup reusing an email already present in the store fails
with a BadRequest (HTTP 400) and leaves the store unchanged, so no
duplicate record is created. -/
theorem signUp_duplicate_email_rejected (dto : CreateUserDto) (store : Store) (salt : Nat)
    (u : User) (hu : u ∈ store) (he : u.email = dto.email) :
    (AuthService.signUp dto store salt).2 = store ∧
    ∃ d, (AuthService.signUp dto store salt).1 = .error (.badRequest d) ∧
      statusCode (.badRequest d) = 400 := by
  have hany : (store.any fun v => v.email == dto.email) = true :=
    List.any_eq_true.mpr ⟨u, hu, by simp [he]⟩
  refine ⟨?_, "Key (email)=(" ++ dto.email ++ ") already exists.", ?_, rfl⟩
  · simp [AuthService.signUp, save, hany, AuthService.handleDBError]
  · simp [AuthService.signUp, save, hany, AuthService.handleDBError]

/-- Witness for C4: re-registering the demo user's email leaves the
demo store unchanged and produces a 400 BadRequest. -/
theorem signUp_duplicate_email_rejected_witness :
    (AuthService.signUp demoDupDto demoStore 3).2 = demoStore ∧
    ∃ d, (AuthService.signUp demoDupDto demoStore 3).1 = .error (.badRequest d) ∧
      statusCode (.badRequest d) = 400 :=
  signUp_duplicate_email_rejected demoDupDto demoStore 3 demoUser (by decide) rfl

/-- C5 counterexample: on a duplicate-email signup the client-facing
400 response carries the store's error detail string verbatim
(`BadRequestException(error.detail)` in handleDBError), so an error
path of the auth core does expose internal store error detail to the
client. -/
theorem error_detail_exposed_counterexample :
    (AuthService.signUp demoDupDto demoStore 3).1 =
      .error (.badRequest "Key (email)=(a@x) already exists.") ∧
    AuthService.handleDBError
        { code := "23505", detail := "Key (email)=(a@x) already exists." } =
      .error (.badRequest "Key (email)=(a@x) already exists.") := by
  constructor <;> rfl

/-- C5 amended: no error path exposes password hashes or raw secrets to
the client — the error signup sends to the client is identical whatever
the submitted password and drawn salt, and every signin or validation
error is one of the fixed literal messages; for every store failure
other than a duplicate-key error the client receives only the generic
message "Please see server logs" while the full error is logged
server-side; the duplicate-key (23505) path, however, forwards the
store's detail string to the client in the 400 response (and logs
nothing). -/
theorem store_failure_generic_message (e : DBError) :
    (e.code ≠ "23505" →
      AuthService.handleDBError e = .error (.internalServerError "Please see server logs") ∧
      AuthService.handleDBErrorLog e = [e]) ∧
    (e.code = "23505" →
      AuthService.handleDBError e = .error (.badRequest e.detail) ∧
      AuthService.handleDBErrorLog e = []) ∧
    (∀ email p1 p2 name store s1 s2,
      errorOf (AuthService.signUp { email := email, password := p1, fullName := name } store s1).1 =
        errorOf (AuthService.signUp { email := email, password := p2, fullName := name } store s2).1) ∧
    (∀ dto store now lifetime a,
      AuthService.signIn dto store now lifetime = .error a →
        a = .unauthorized "Invalid credentials") ∧
    (∀ payload store a,
      JwtStrategy.validate payload store = .error a →
        a = .unauthorized "Token not valid" ∨
        a = .unauthorized "User is inactive, talk with an admin") := by
  refine ⟨?_, ?_, ?_, ?_, ?_⟩
  · intro h
    constructor <;> simp [AuthService.handleDBError, AuthService.handleDBErrorLog, h]
  · intro h
    constructor <;> simp [AuthService.handleDBError, AuthService.handleDBErrorLog, h]
  · intro email p1 p2 name store s1 s2
    by_cases hany : (store.any fun u => u.email == email) = true
    · simp [AuthService.signUp, save, hany, AuthService.handleDBError, errorOf]
    · have hany2 : (store.any fun u => u.email == email) = false :=
        Bool.eq_false_iff.mpr hany
      simp [AuthService.signUp, save, hany2, errorOf]
  · intro dto store now lifetime a h
    cases hf : findOneBy store dto.email with
    | none =>
      simp [AuthService.signIn, hf] at h
      exact h.symm
    | some u =>
      cases hp : u.password with
      | none =>
        simp [AuthService.signIn, hf, hp] at h
        exact h.symm
      | some hsh =>
        by_cases hc : bcryptCompareSync dto.password hsh = true
        · simp [AuthService.signIn, hf, hp, hc] at h
        · have hc2 : bcryptCompareSync dto.password hsh = false :=
            Bool.eq_false_iff.mpr hc
          simp [AuthService.signIn, hf, hp, hc2] at h
          exact h.symm
  · intro payload store a h
    cases hf : findOneBy store payload.email with
    | none =>
      simp [JwtStrategy.validate, hf] at h
      exact Or.inl h.symm
    | some u =>
      by_cases ha : u.isActive
      · simp [JwtStrategy.validate, hf, ha] at h
      · simp [JwtStrategy.validate, hf, ha] at h
        exact Or.inr h.symm

/-- Witness for amended C5: a concrete unexpected store failure yields
the generic 500 message and is logged with its detail server-side; a
concrete duplicate signup sends the same client error under two
different passwords and salts; and a concrete failing signin carries
the fixed invalid-credentials message. -/
theorem store_failure_generic_message_witness :
    (AuthService.handleDBError { code := "08006", detail := "connection dropped" } =
        .error (.internalServerError "Please see server logs") ∧
      AuthService.handleDBErrorLog { code := "08006", detail := "connection dropped" } =
        [{ code := "08006", detail := "connection dropped" }]) ∧
    errorOf (AuthService.signUp
        { email := "a@x", password := "pw", fullName := "D" } demoStore 0).1 =
      errorOf (AuthService.signUp
        { email := "a@x", password := "hunter2", fullName := "D" } demoStore 1).1 ∧
    AuthError.unauthorized "Invalid credentials" = .unauthorized "Invalid credentials" :=
  ⟨(store_failure_generic_message { code := "08006", detail := "connection dropped" }).1
      (by decide),
   (store_failure_generic_message
      { code := "08006", detail := "connection dropped" }).2.2.1 "a@x" "pw" "hunter2" "D"
      demoStore 0 1,
   (store_failure_generic_message
      { code := "08006", detail := "connection dropped" }).2.2.2.1
      { email := "z@x", password := "pw" } demoStore 0 0
      (.unauthorized "Invalid credentials") rfl⟩

/-- C6: hashing a plaintext uses the drawn salt at the fixed cost
factor 10 (as signUp invokes it); two draws with distinct salts yield
distinct hash values, both verify against the original plaintext, and
verification fails for any other plaintext. -/
theorem bcrypt_salted_hash_roundtrip (p q : String) (s1 s2 : Nat)
    (hs : s1 ≠ s2) (hq : q ≠ p) :
    bcryptHashSync p 10 s1 ≠ bcryptHashSync p 10 s2 ∧
    bcryptCompareSync p (bcryptHashSync p 10 s1) = true ∧
    bcryptCompareSync p (bcryptHashSync p 10 s2) = true ∧
    bcryptCompareSync q (bcryptHashSync p 10 s1) = false := by
  refine ⟨?_, bcryptCompareSync_hashSync p 10 s1, bcryptCompareSync_hashSync p 10 s2,
    bcryptCompareSync_hashSync_ne p q 10 s1 hq⟩
  intro h
  exact hs (congrArg BcryptHash.salt h)

/-- Witness for C6: concrete round trip for plaintext "pw" under salts
0 and 1, with "qq" as the distinct plaintext. -/
theorem bcrypt_salted_hash_roundtrip_witness :
    bcryptHashSync "pw" 10 0 ≠ bcryptHashSync "pw" 10 1 ∧
    bcryptCompareSync "pw" (bcryptHashSync "pw" 10 0) = true ∧
    bcryptCompareSync "pw" (bcryptHashSync "pw" 10 1) = true ∧
    bcryptCompareSync "qq" (bcryptHashSync "pw" 10 0) = false :=
  bcrypt_salted_hash_roundtrip "pw" "qq" 0 1 (by decide) (by decide)

/-- C7: a missing signing key fails Token Validator construction with a
SigningError, a configured key constructs successfully, and per-request
validation never produces a signing-configuration error on any payload
or store. -/
theorem signing_key_startup_only :
    jwtStrategyInit none = .error SigningError.missingKey ∧
    (∀ k, jwtStrategyInit (some k) = .ok { secretOrKey := k }) ∧
    (∀ payload store,
      isSigningConfigError (JwtStrategy.validate payload store) = false) := by
  refine ⟨rfl, fun k => rfl, ?_⟩
  intro payload store
  unfold JwtStrategy.validate
  cases hf : findOneBy store payload.email with
  | none => rfl
  | some u =>
    by_cases ha : u.isActive <;> simp [ha, isSigningConfigError]

/-- C8: a signin whose credentials match a stored user returns the
issued token together with that user; an unknown email or a wrong
password yields an error with HTTP status 401. -/
theorem signIn_token_or_unauthorized (dto : LoginUserDto) (store : Store)
    (now lifetime : Nat) :
    (∀ u h, findOneBy store dto.email = some u → u.password = some h →
      bcryptCompareSync dto.password h = true →
      AuthController.signIn dto store now lifetime =
        .ok { token := issueToken dto.email now lifetime, user := u }) ∧
    (findOneBy store dto.email = none →
      ∃ e, AuthController.signIn dto store now lifetime = .error e ∧
        statusCode e = 401) ∧
    (∀ u h, findOneBy store dto.email = some u → u.password = some h →
      bcryptCompareSync dto.password h = false →
      ∃ e, AuthController.signIn dto store now lifetime = .error e ∧
        statusCode e = 401) := by
  refine ⟨?_, ?_, ?_⟩
  · intro u h hu hp hc
    simp [AuthController.signIn, AuthService.signIn, hu, hp, hc]
  · intro hu
    exact ⟨.unauthorized "Invalid credentials",
      by simp [AuthController.signIn, AuthService.signIn, hu], rfl⟩
  · intro u h hu hp hc
    exact ⟨.unauthorized "Invalid credentials",
      by simp [AuthController.signIn, AuthService.signIn, hu, hp, hc], rfl⟩

/-- Witness for C8: the demo user signs in with the correct password
and receives the issued token and the stored user. -/
theorem signIn_token_or_unauthorized_witness :
    AuthController.signIn { email := "a@x", password := "pw" } demoStore 0 7200 =
      .ok { token := issueToken "a@x" 0 7200, user := demoUser } :=
  (signIn_token_or_unauthorized { email := "a@x", password := "pw" } demoStore 0 7200).1
    demoUser demoHash rfl rfl (by decide)

/-- C9: the RawHeaders accessor returns the request's raw header
sequence exactly as stored on the request, unchanged and unfiltered,
and its result does not depend on the data key argument passed to the
decorator. -/
theorem rawHeaders_identity (d1 d2 : Option String) (ctx : ExecutionContext) :
    RawHeaders d1 ctx = ctx.request.rawHeaders ∧
    RawHeaders d1 ctx = RawHeaders d2 ctx :=
  ⟨rfl, rfl⟩

/-- C10: signUp either returns the created user or throws: the trailing
string return ("This action adds a new auth") is never produced,
because handleDBError throws on every input and never returns
normally. -/
theorem signUp_trailing_return_unreachable (dto : CreateUserDto) (store : Store) (salt : Nat) :
    ((∃ u, (AuthService.signUp dto store salt).1 = .ok (.user u)) ∨
      (∃ e, (AuthService.signUp dto store salt).1 = .error e)) ∧
    isMessageResult (AuthService.signUp dto store salt).1 = false ∧
    (∀ e, isThrown (AuthService.handleDBError e) = true) := by
  have hthrow : ∀ e, isThrown (AuthService.handleDBError e) = true := by
    intro e
    unfold AuthService.handleDBError
    by_cases h : e.code == "23505" <;> simp [h, isThrown]
  by_cases hany : (store.any fun u => u.email == dto.email) = true
  · refine ⟨Or.inr ?_, ?_, hthrow⟩
    · exact ⟨.badRequest ("Key (email)=(" ++ dto.email ++ ") already exists."),
        by simp [AuthService.signUp, save, hany, AuthService.handleDBError]⟩
    · simp [AuthService.signUp, save, hany, AuthService.handleDBError, isMessageResult]
  · have hany2 : (store.any fun u => u.email == dto.email) = false :=
      Bool.not_eq_true _ ▸ Bool.eq_false_iff.mpr hany
    refine ⟨Or.inl ?_, ?_, hthrow⟩
    · exact ⟨{ id := store.length, email := dto.email, password := none,
               fullName := dto.fullName, roles := [], isActive := true },
        by simp [AuthService.signUp, save, hany2]⟩
    · simp [AuthService.signUp, save, hany2, isMessageResult]
